import Mathlib

/-!
Shallow embedding of the zowe-cli job-submission layer (`SubmitJobs`) and the
workflow start handler (`StartCommonHandler`), together with proofs about the
post-submission option resolution, validation, header construction, spool
aggregation and the workflow wait loop.

Remote collaborators (the REST client, `MonitorJobs`, `GetJobs`,
`DownloadJobs`, `StartWorkflow`, `PropertiesWorkflow`) are modelled as oracle
functions supplied in an environment record; every operation additionally
returns the list of calls (events) it performed, in order, so that statements
about which remote calls happen are expressible.
-/

/-- Job status enumeration (`JOB_STATUS`). -/
inductive JOB_STATUS where
  | INPUT
  | ACTIVE
  | OUTPUT
deriving DecidableEq, Repr

/-- Job document returned by the remote system (`IJob`); fields that can be
absent in the JSON document are `Option`. -/
structure IJob where
  jobname : Option String
  jobid : Option String
  status : Option JOB_STATUS
  retcode : Option String
deriving DecidableEq, Repr

/-- One spool file descriptor (`IJobFile`). -/
structure IJobFile where
  id : Nat
  ddname : String
  stepname : Option String
  procstep : Option String
deriving DecidableEq, Repr

/-- One collected spool file with its content (`ISpoolFile`). -/
structure ISpoolFile where
  id : Nat
  ddName : String
  stepName : Option String
  procName : Option String
  data : String
deriving DecidableEq, Repr

/-- Submission options bag (`ISubmitParms`); booleans absent in TypeScript are
`false` here, optional strings and numbers are `Option`.  `task` records
whether a progress-reporting sink was supplied. -/
structure ISubmitParms where
  waitForActive : Bool
  viewAllSpoolContent : Bool
  waitForOutput : Bool
  directory : Option String
  extension : Option String
  maxAttempts : Option Nat
  watchDelay : Option Nat
  task : Bool
deriving DecidableEq, Repr

/-- Parameters handed to `MonitorJobs.waitForStatusCommon`
(`IMonitorJobWaitForParms`). -/
structure IMonitorJobWaitForParms where
  jobname : Option String
  jobid : Option String
  status : Option JOB_STATUS
  maxAttempts : Option Nat
  watchDelay : Option Nat
deriving DecidableEq, Repr

/-- Parameters for the bulk spool download
(`IDownloadAllSpoolContentParms`). -/
structure IDownloadAllSpoolContentParms where
  jobid : Option String
  jobname : Option String
  outDir : String
  extension : Option String
deriving DecidableEq, Repr

/-- JavaScript truthiness of an optional string: `null`/`undefined` and the
empty string are falsy. -/
def truthyS : Option String → Bool
  | none => false
  | some s => s ≠ ""

/-- Rendering of an optional string inside a concatenated message (JavaScript
prints `undefined` for an absent value). -/
def optStr : Option String → String
  | none => "undefined"
  | some s => s

/-- A value thrown by an operation: an `ImperativeError` raised by an
`ImperativeExpect` validation (the spec's MissingParameter), a structured
remote failure, the monitor's attempt-exhaustion error, or a plain string. -/
inductive Thrown where
  | missingParameter (msg : String)
  | remoteFail (msg : String)
  | maxAttemptsExceeded (msg : String)
  | str (s : String)
deriving DecidableEq, Repr

/-- JavaScript stringification of a thrown value, as used by
string concatenation in the handler's catch block. -/
def thrownToString : Thrown → String
  | .missingParameter m => m
  | .remoteFail m => m
  | .maxAttemptsExceeded m => m
  | .str s => s

/-- Request headers used by the submit path (`ZosmfHeaders` / `Headers`). -/
inductive Header where
  | applicationJson
  | textPlainUtf8
  | intrdrModeText
  | intrdrLrecl (v : String)
  | intrdrRecfm (v : String)
deriving DecidableEq, Repr

/-- Body of the intake request: JSON data-set reference or raw JCL text. -/
inductive Body where
  | jsonFile (file : String)
  | text (jcl : String)
deriving DecidableEq, Repr

/-- A PUT request to the jobs resource. -/
structure PutRequest where
  resource : String
  headers : List Header
  body : Body
deriving DecidableEq, Repr

/-- The jobs REST resource (`JobsConstants.RESOURCE`). -/
def RESOURCE : String := "/zosmf/restjobs/jobs"

/-- One observable action of the jobs layer: a remote call or a progress
update on the supplied task sink. -/
inductive Event where
  | putJob (req : PutRequest)
  | waitForStatus (parms : IMonitorJobWaitForParms)
  | getSpoolFiles (job : IJob)
  | getSpoolContent (file : IJobFile)
  | downloadAllSpool (parms : IDownloadAllSpoolContentParms)
  | progress (msg : String) (pct : Nat)
deriving DecidableEq, Repr

/-- Whether an event is a remote call (progress updates are purely local). -/
def Event.isRemote : Event → Bool
  | .progress _ _ => false
  | _ => true

/-- Whether an event is a status poll. -/
def Event.isWait : Event → Bool
  | .waitForStatus _ => true
  | _ => false

/-- Oracle environment for the jobs layer: the behavior of each external
collaborator the `SubmitJobs` class calls. -/
structure JobsEnv where
  putExpectJSON : PutRequest → Except Thrown IJob
  waitForStatusCommon : IMonitorJobWaitForParms → Except Thrown IJob
  getSpoolFilesForJob : IJob → Except Thrown (List IJobFile)
  getSpoolContent : IJobFile → Except Thrown String
  downloadAllSpoolContentCommon : IDownloadAllSpoolContentParms → Except Thrown Unit

/-- Result of a submission-path operation: a job document or the collected
spool files. -/
inductive SubmitResponse where
  | job (j : IJob)
  | spool (files : List ISpoolFile)
deriving DecidableEq, Repr

/-- `IO.normalizeExtension` of the imperative package (external collaborator):
ensures a leading dot on the extension. -/
def normalizeExtension (ext : String) : String :=
  if ext.startsWith "." then ext else "." ++ ext

namespace SubmitJobs

/-- Message of `ZosJobsMessages.missingJcl`. -/
def missingJclMessage : String := "No JCL provided"

/-- Message of the `keysToBeDefined` check in `submitJclCommon`. -/
def missingJclParmMessage : String :=
  "You must provide a JCL string to submit. The \x27jcl\x27 field of the provided parameters was undefined. "

/-- Message of the `keysToBeDefined` check in `submitJobCommon`. -/
def missingDataSetMessage : String :=
  "You must provide a data set containing JCL to submit in parms.jobDataSet"

/-- Message of the `keysToBeDefined` check in `submitNotifyCommon`. -/
def jobKeysMessage : String :=
  "The job object you provide must contain both \x27jobname\x27 and \x27jobid\x27."

/-- Parameters of `submitJclCommon` (`ISubmitJclParms`). -/
structure ISubmitJclParms where
  jcl : Option String
  internalReaderRecfm : Option String
  internalReaderLrecl : Option String
deriving DecidableEq, Repr

/-- Parameters of `submitJobCommon` (`ISubmitJobParms`). -/
structure ISubmitJobParms where
  jobDataSet : Option String
deriving DecidableEq, Repr

/-- Parameters of `submitJclNotifyCommon` (`ISubmitJclNotifyParm`). -/
structure ISubmitJclNotifyParm where
  jcl : Option String
  internalReaderRecfm : Option String
  internalReaderLrecl : Option String
  status : Option JOB_STATUS
  watchDelay : Option Nat
deriving DecidableEq, Repr

/-- Parameters of `submitJobNotifyCommon` (`ISubmitJobNotifyParm`). -/
structure ISubmitJobNotifyParm where
  jobDataSet : Option String
  status : Option JOB_STATUS
  watchDelay : Option Nat
deriving DecidableEq, Repr

/-- `SubmitJobs.submitJobCommon`: validate the data-set reference, then PUT a
JSON body referencing the fully qualified data set. -/
def submitJobCommon (env : JobsEnv) (parms : ISubmitJobParms) :
    Except Thrown IJob × List Event :=
  match parms.jobDataSet with
  | none => (.error (.missingParameter missingDataSetMessage), [])
  | some ds =>
    let req : PutRequest :=
      { resource := RESOURCE
        headers := [.applicationJson]
        body := .jsonFile ("//\x27" ++ ds ++ "\x27") }
    (env.putExpectJSON req, [.putJob req])

/-- `SubmitJobs.submitJclCommon`: validate that `jcl` is defined, build the
intake headers (caller-supplied lrecl/recfm when truthy, defaults `80` and `F`
otherwise), then PUT the JCL text. -/
def submitJclCommon (env : JobsEnv) (parms : ISubmitJclParms) :
    Except Thrown IJob × List Event :=
  match parms.jcl with
  | none => (.error (.missingParameter missingJclParmMessage), [])
  | some jclText =>
    let lreclHeader : Header :=
      match parms.internalReaderLrecl with
      | some l => if l ≠ "" then .intrdrLrecl l else .intrdrLrecl "80"
      | none => .intrdrLrecl "80"
    let recfmHeader : Header :=
      match parms.internalReaderRecfm with
      | some r => if r ≠ "" then .intrdrRecfm r else .intrdrRecfm "F"
      | none => .intrdrRecfm "F"
    let req : PutRequest :=
      { resource := RESOURCE
        headers := [.textPlainUtf8, .intrdrModeText, lreclHeader, recfmHeader]
        body := .text jclText }
    (env.putExpectJSON req, [.putJob req])

/-- Sequential fetch of spool content for a list of spool file descriptors,
one remote call per file, accumulating `ISpoolFile` entries in order
(the `for` loop of `checkSubmitOptions`). -/
def fetchSpool (env : JobsEnv) : List IJobFile → Except Thrown (List ISpoolFile) × List Event
  | [] => (.ok [], [])
  | file :: rest =>
    match env.getSpoolContent file with
    | .error e => (.error e, [.getSpoolContent file])
    | .ok spoolContent =>
      match fetchSpool env rest with
      | (res, tr) =>
        (res.map (fun tail =>
          { id := file.id
            ddName := file.ddname
            stepName := file.stepname
            procName := file.procstep
            data := spoolContent } :: tail),
         .getSpoolContent file :: tr)

/-- `SubmitJobs.checkSubmitOptions`: ordered resolution of the post-submission
options — wait-for-active first, then view-all-spool-content / wait-for-output,
then directory download, otherwise return the original snapshot. -/
def checkSubmitOptions (env : JobsEnv) (parms : ISubmitParms) (responseJobInfo : IJob) :
    Except Thrown SubmitResponse × List Event :=
  let jobParms : IMonitorJobWaitForParms :=
    { jobname := responseJobInfo.jobname
      jobid := responseJobInfo.jobid
      status := some (if parms.waitForActive then JOB_STATUS.ACTIVE else JOB_STATUS.OUTPUT)
      maxAttempts := parms.maxAttempts
      watchDelay := parms.watchDelay }
  if parms.waitForActive then
    match env.waitForStatusCommon jobParms with
    | .ok activeJob => (.ok (.job activeJob), [.waitForStatus jobParms])
    | .error e => (.error e, [.waitForStatus jobParms])
  else if parms.viewAllSpoolContent || parms.waitForOutput then
    let t0 : List Event :=
      if parms.task then
        [.progress ("Waiting for " ++ optStr responseJobInfo.jobid ++ " to enter OUTPUT") 30]
      else []
    match env.waitForStatusCommon jobParms with
    | .error e => (.error e, t0 ++ [.waitForStatus jobParms])
    | .ok job =>
      if !parms.viewAllSpoolContent then
        (.ok (.job job), t0 ++ [.waitForStatus jobParms])
      else
        let t1 : List Event :=
          if parms.task then
            [.progress ("Retrieving spool content for " ++ optStr job.jobid ++
              (match job.retcode with | none => "" | some rc => ", " ++ rc)) 70]
          else []
        match env.getSpoolFilesForJob job with
        | .error e => (.error e, t0 ++ [.waitForStatus jobParms] ++ t1 ++ [.getSpoolFiles job])
        | .ok spoolFiles =>
          match fetchSpool env spoolFiles with
          | (.ok arrOfSpoolFile, t2) =>
            (.ok (.spool arrOfSpoolFile),
             t0 ++ [.waitForStatus jobParms] ++ t1 ++ [.getSpoolFiles job] ++ t2)
          | (.error e, t2) =>
            (.error e, t0 ++ [.waitForStatus jobParms] ++ t1 ++ [.getSpoolFiles job] ++ t2)
  else if truthyS parms.directory then
    let t0 : List Event :=
      if parms.task then
        [.progress ("Waiting for " ++ optStr responseJobInfo.jobid ++ " to enter OUTPUT") 30]
      else []
    match env.waitForStatusCommon jobParms with
    | .error e => (.error e, t0 ++ [.waitForStatus jobParms])
    | .ok job =>
      let downloadParms : IDownloadAllSpoolContentParms :=
        { jobid := job.jobid
          jobname := job.jobname
          outDir := optStr parms.directory
          extension :=
            if truthyS parms.extension then some (normalizeExtension (optStr parms.extension))
            else none }
      let t1 : List Event :=
        if parms.task then
          [.progress ("Downloading spool content for " ++ optStr job.jobid ++
            (match job.retcode with | none => "" | some rc => ", " ++ rc)) 70]
        else []
      match env.downloadAllSpoolContentCommon downloadParms with
      | .error e => (.error e, t0 ++ [.waitForStatus jobParms] ++ t1 ++ [.downloadAllSpool downloadParms])
      | .ok _ => (.ok (.job job), t0 ++ [.waitForStatus jobParms] ++ t1 ++ [.downloadAllSpool downloadParms])
  else
    (.ok (.job responseJobInfo), [])

/-- `SubmitJobs.submitJclString`: reject null/undefined and empty JCL with the
missing-JCL message, then submit the text and resolve the submit options. -/
def submitJclString (env : JobsEnv) (jcl : Option String) (parms : ISubmitParms) :
    Except Thrown SubmitResponse × List Event :=
  match jcl with
  | none => (.error (.missingParameter missingJclMessage), [])
  | some s =>
    if s = "" then (.error (.missingParameter missingJclMessage), [])
    else
      match submitJclCommon env { jcl := some s, internalReaderRecfm := none, internalReaderLrecl := none } with
      | (.error e, tr) => (.error e, tr)
      | (.ok responseJobInfo, tr) =>
        match checkSubmitOptions env parms responseJobInfo with
        | (res, tr2) => (res, tr ++ tr2)

/-- `SubmitJobs.submitNotifyCommon`: validate that the submitted job document
carries both `jobname` and `jobid`, then hand off to the status monitor. -/
def submitNotifyCommon (env : JobsEnv) (job : IJob) (status : Option JOB_STATUS)
    (watchDelay : Option Nat) : Except Thrown IJob × List Event :=
  if job.jobname.isNone || job.jobid.isNone then
    (.error (.missingParameter jobKeysMessage), [])
  else
    let p : IMonitorJobWaitForParms :=
      { jobname := job.jobname
        jobid := job.jobid
        status := status
        maxAttempts := none
        watchDelay := watchDelay }
    (env.waitForStatusCommon p, [.waitForStatus p])

/-- `SubmitJobs.submitJclNotifyCommon`: submit literal JCL, then notify on
completion through `submitNotifyCommon`. -/
def submitJclNotifyCommon (env : JobsEnv) (parms : ISubmitJclNotifyParm) :
    Except Thrown IJob × List Event :=
  match submitJclCommon env
      { jcl := parms.jcl
        internalReaderRecfm := parms.internalReaderRecfm
        internalReaderLrecl := parms.internalReaderLrecl } with
  | (.error e, tr) => (.error e, tr)
  | (.ok job, tr) =>
    match submitNotifyCommon env job parms.status parms.watchDelay with
    | (res, tr2) => (res, tr ++ tr2)

/-- `SubmitJobs.submitJobNotifyCommon`: validate the data-set reference,
submit the job, then notify on completion through `submitNotifyCommon`. -/
def submitJobNotifyCommon (env : JobsEnv) (parms : ISubmitJobNotifyParm) :
    Except Thrown IJob × List Event :=
  match parms.jobDataSet with
  | none => (.error (.missingParameter "You must provide a data set containing JCL to submit in parms.jobDataSet."), [])
  | some _ =>
    match submitJobCommon env { jobDataSet := parms.jobDataSet } with
    | (.error e, tr) => (.error e, tr)
    | (.ok job, tr) =>
      match submitNotifyCommon env job parms.status parms.watchDelay with
      | (res, tr2) => (res, tr ++ tr2)

end SubmitJobs

/-- Automation status of a workflow (`IAutomationStatus`); only the field the
handler reads is modelled. -/
structure IAutomationStatus where
  currentStepName : Option String
deriving DecidableEq, Repr

/-- Workflow properties document (`IWorkflowInfo`); only the fields the
handler reads are modelled. -/
structure IWorkflowInfo where
  automationStatus : Option IAutomationStatus
  statusName : Option String
deriving DecidableEq, Repr

namespace StartCommonHandler

/-- Command arguments of the workflow-start handler. -/
structure StartArgs where
  workflowKey : Option String
  resolveConflict : Option String
  stepName : Option String
  performOneStep : Option Bool
  wait : Bool
deriving DecidableEq, Repr

/-- Oracle environment for the workflow handler: the start call's outcome and
the successive results of the properties queries. -/
structure WorkflowEnv where
  startWorkflow : Option String → Option String → Option String → Bool → Except Thrown Unit
  properties : List (Except Thrown IWorkflowInfo)

/-- Observable outcome of the handler: a rejection, a finished run (with the
data object and console message it reported), or still looping after
consuming every supplied properties response. -/
inductive HandlerResult where
  | thrown (e : Thrown)
  | output (dataObj : String) (consoleMsg : String)
  | looping
deriving DecidableEq, Repr

/-- Whether a properties response keeps the wait loop going: it does whenever
`automationStatus` is absent or `currentStepName` is still present. -/
def continues (r : IWorkflowInfo) : Bool :=
  match r.automationStatus with
  | none => true
  | some auto => auto.currentStepName.isSome

/-- Whether a properties response is terminal for the wait loop:
`automationStatus` present with `currentStepName` null/absent. -/
def terminal (r : IWorkflowInfo) : Bool :=
  match r.automationStatus with
  | none => false
  | some auto => auto.currentStepName.isNone

/-- The `while(x)` wait loop of `processCmd`, consuming one properties
response per iteration; returns the outcome together with the number of
properties queries performed. -/
def waitLoop : List (Except Thrown IWorkflowInfo) → HandlerResult × Nat
  | [] => (.looping, 0)
  | .error e :: _ => (.thrown e, 1)
  | .ok response :: rest =>
    match response.automationStatus with
    | some auto =>
      match auto.currentStepName with
      | none =>
        if response.statusName = some "complete" then
          (.output "Complete." "Workflow completed successfully.", 1)
        else
          (.output "Fail." "Workflow failed.", 1)
      | some _ =>
        match waitLoop rest with
        | (res, n) => (res, n + 1)
    | none =>
      match waitLoop rest with
      | (res, n) => (res, n + 1)

/-- `StartCommonHandler.processCmd`: start the workflow (wrapping a start
failure into a thrown string), then either enter the wait loop or report
that the workflow started. -/
def processCmd (env : WorkflowEnv) (args : StartArgs) : HandlerResult × Nat :=
  let performOneStep := args.performOneStep.getD false
  match env.startWorkflow args.workflowKey args.resolveConflict args.stepName (!performOneStep) with
  | .error err => (.thrown (.str ("Start workflow: " ++ thrownToString err)), 0)
  | .ok _ =>
    if args.wait then
      waitLoop env.properties
    else
      (.output "Started." "Workflow started.", 0)

end StartCommonHandler

namespace MonitorJobs

/-- Modelled from the spec: `MonitorJobs.waitForStatusCommon` is code of this
repository that is not under src/ (only its caller `SubmitJobs` is).  Spec
§4.2: repeatedly query the remote status endpoint until the returned status
matches the target — return that snapshot — or the attempt budget is
exhausted — fail with a MaxAttemptsExceeded error.  `query i` is the job
document returned by the i-th remote status query. -/
def pollForStatus (query : Nat → IJob) (target : JOB_STATUS) :
    Nat → Nat → Except Thrown IJob
  | _, 0 => .error (.maxAttemptsExceeded "Reached the maximum number of poll attempts")
  | attempt, fuel + 1 =>
    let snapshot := query attempt
    if snapshot.status = some target then .ok snapshot
    else pollForStatus query target (attempt + 1) fuel

/-- Modelled from the spec: the default attempt budget is a process-wide
constant (spec §4.2); its value is immaterial to the theorems below. -/
def DEFAULT_ATTEMPTS : Nat := 1000

/-- Modelled from the spec: the default target status is OUTPUT (spec §4.2,
§4.4 with §4.3 step 2's "poll until status = OUTPUT" as the default mode). -/
def DEFAULT_STATUS : JOB_STATUS := JOB_STATUS.OUTPUT

/-- Modelled from the spec: `waitForStatusCommon` driven by a stream of
remote status responses, with spec defaults for absent target/attempts. -/
def waitForStatusCommon (query : Nat → IJob) (parms : IMonitorJobWaitForParms) :
    Except Thrown IJob :=
  pollForStatus query (parms.status.getD DEFAULT_STATUS) 0 (parms.maxAttempts.getD DEFAULT_ATTEMPTS)

end MonitorJobs

section Lemmas

/-- Whether a properties-query result keeps the handler's wait loop going
(an error response terminates it by rejection). -/
def continuesR : Except Thrown IWorkflowInfo → Bool
  | .ok r => StartCommonHandler.continues r
  | .error _ => false

lemma fetchSpool_ok (env : JobsEnv) (c : IJobFile → String) :
    ∀ files : List IJobFile, (∀ f ∈ files, env.getSpoolContent f = .ok (c f)) →
      SubmitJobs.fetchSpool env files =
        (.ok (files.map fun f =>
          { id := f.id, ddName := f.ddname, stepName := f.stepname,
            procName := f.procstep, data := c f }),
         files.map Event.getSpoolContent) := by
  intro files
  induction files with
  | nil => intro _; rfl
  | cons f rest ih =>
    intro h
    have hf : env.getSpoolContent f = .ok (c f) := h f (by simp)
    have hrest : ∀ g ∈ rest, env.getSpoolContent g = .ok (c g) := by
      intro g hg; exact h g (by simp [hg])
    simp [SubmitJobs.fetchSpool, hf, ih hrest, Except.map]

lemma fetchSpool_err (env : JobsEnv) (c : IJobFile → String) (bad : IJobFile)
    (post : List IJobFile) (e : Thrown) (hbad : env.getSpoolContent bad = .error e) :
    ∀ pre : List IJobFile, (∀ f ∈ pre, env.getSpoolContent f = .ok (c f)) →
      SubmitJobs.fetchSpool env (pre ++ bad :: post) =
        (.error e, pre.map Event.getSpoolContent ++ [Event.getSpoolContent bad]) := by
  intro pre
  induction pre with
  | nil => intro _; simp [SubmitJobs.fetchSpool, hbad]
  | cons f rest ih =>
    intro h
    have hf : env.getSpoolContent f = .ok (c f) := h f (by simp)
    have hrest : ∀ g ∈ rest, env.getSpoolContent g = .ok (c g) := by
      intro g hg; exact h g (by simp [hg])
    simp [SubmitJobs.fetchSpool, hf, ih hrest, Except.map]

lemma waitLoop_terminal_head (r : IWorkflowInfo)
    (rest : List (Except Thrown IWorkflowInfo))
    (h : StartCommonHandler.terminal r = true) :
    StartCommonHandler.waitLoop (Except.ok r :: rest) =
      (if r.statusName = some "complete" then
        StartCommonHandler.HandlerResult.output "Complete." "Workflow completed successfully."
       else StartCommonHandler.HandlerResult.output "Fail." "Workflow failed.", 1) := by
  cases hauto : r.automationStatus with
  | none => simp [StartCommonHandler.terminal, hauto] at h
  | some auto =>
    cases hstep : auto.currentStepName with
    | some s => simp [StartCommonHandler.terminal, hauto, hstep] at h
    | none =>
      simp [StartCommonHandler.waitLoop, hauto, hstep]
      split <;> rfl

lemma waitLoop_continue_head (p : Except Thrown IWorkflowInfo)
    (rest : List (Except Thrown IWorkflowInfo)) (h : continuesR p = true) :
    StartCommonHandler.waitLoop (p :: rest) =
      ((StartCommonHandler.waitLoop rest).1, (StartCommonHandler.waitLoop rest).2 + 1) := by
  cases p with
  | error e => simp [continuesR] at h
  | ok r =>
    cases hauto : r.automationStatus with
    | none => simp [StartCommonHandler.waitLoop, hauto]
    | some auto =>
      cases hstep : auto.currentStepName with
      | none => simp [continuesR, StartCommonHandler.continues, hauto, hstep] at h
      | some s => simp [StartCommonHandler.waitLoop, hauto, hstep]

lemma waitLoop_append_continues (l : List (Except Thrown IWorkflowInfo)) :
    ∀ pre : List (Except Thrown IWorkflowInfo), (∀ p ∈ pre, continuesR p = true) →
      StartCommonHandler.waitLoop (pre ++ l) =
        ((StartCommonHandler.waitLoop l).1, (StartCommonHandler.waitLoop l).2 + pre.length) := by
  intro pre
  induction pre with
  | nil => intro _; simp
  | cons p rest ih =>
    intro h
    have hp : continuesR p = true := h p (by simp)
    have hrest : ∀ q ∈ rest, continuesR q = true := by
      intro q hq; exact h q (by simp [hq])
    rw [List.cons_append, waitLoop_continue_head p (rest ++ l) hp, ih hrest]
    simp [Nat.add_assoc]

lemma waitLoop_all_continues :
    ∀ l : List (Except Thrown IWorkflowInfo), (∀ p ∈ l, continuesR p = true) →
      StartCommonHandler.waitLoop l = (.looping, l.length) := by
  intro l
  induction l with
  | nil => intro _; rfl
  | cons p rest ih =>
    intro h
    have hp : continuesR p = true := h p (by simp)
    have hrest : ∀ q ∈ rest, continuesR q = true := by
      intro q hq; exact h q (by simp [hq])
    rw [waitLoop_continue_head p rest hp, ih hrest]
    simp

lemma pollForStatus_first (query : Nat → IJob) (target : JOB_STATUS) :
    ∀ (k a fuel : Nat), (∀ i, i < k → (query (a + i)).status ≠ some target) →
      (query (a + k)).status = some target → k < fuel →
      MonitorJobs.pollForStatus query target a fuel = .ok (query (a + k)) := by
  intro k
  induction k with
  | zero =>
    intro a fuel _ hk hfuel
    cases fuel with
    | zero => omega
    | succ f => simp [MonitorJobs.pollForStatus] at hk ⊢; simp [hk]
  | succ k ih =>
    intro a fuel hfirst hk hfuel
    cases fuel with
    | zero => omega
    | succ f =>
      have h0 : (query (a + 0)).status ≠ some target := hfirst 0 (by omega)
      simp at h0
      have hrec := ih (a + 1) f
        (fun i hi => by
          have := hfirst (i + 1) (by omega)
          simpa [Nat.add_assoc, Nat.add_comm 1 i] using this)
        (by simpa [Nat.add_assoc, Nat.add_comm 1 k] using hk)
        (by omega)
      have hrec2 : MonitorJobs.pollForStatus query target (a + 1) f
          = .ok (query (a + (k + 1))) := by
        simpa [Nat.add_assoc, Nat.add_comm 1 k] using hrec
      simp [MonitorJobs.pollForStatus, h0, hrec2]

end Lemmas

section Fixtures

/-- A completed job document used as a concrete fixture. -/
def jobFix : IJob :=
  { jobname := some "IEFBR14", jobid := some "JOB00001",
    status := some JOB_STATUS.OUTPUT, retcode := some "CC 0000" }

/-- A benign oracle environment: every remote call succeeds. -/
def envFix : JobsEnv :=
  { putExpectJSON := fun _ => .ok jobFix
    waitForStatusCommon := fun _ => .ok jobFix
    getSpoolFilesForJob := fun _ => .ok []
    getSpoolContent := fun _ => .ok ""
    downloadAllSpoolContentCommon := fun _ => .ok () }

/-- An options bag with no post-submission option set. -/
def parmsNone : ISubmitParms :=
  { waitForActive := false, viewAllSpoolContent := false, waitForOutput := false,
    directory := none, extension := none, maxAttempts := none, watchDelay := none,
    task := false }

end Fixtures

/-- C9: when none of waitForActive, viewAllSpoolContent, waitForOutput and
directory is set, `checkSubmitOptions` returns the original post-submission
job snapshot unmodified and performs no status polling and no further remote
calls (its event trace is empty). -/
theorem checkSubmitOptions_noOptions (env : JobsEnv) (parms : ISubmitParms) (job : IJob)
    (hA : parms.waitForActive = false) (hV : parms.viewAllSpoolContent = false)
    (hW : parms.waitForOutput = false) (hD : truthyS parms.directory = false) :
    SubmitJobs.checkSubmitOptions env parms job = (.ok (.job job), []) := by
  simp [SubmitJobs.checkSubmitOptions, hA, hV, hW, hD]

/-- Witness for C9 at a concrete environment, options bag and job. -/
theorem checkSubmitOptions_noOptions_witness :
    SubmitJobs.checkSubmitOptions envFix parmsNone jobFix
      = (.ok (.job jobFix), []) :=
  checkSubmitOptions_noOptions envFix parmsNone jobFix rfl rfl rfl rfl

/-- The PUT request produced for an empty (but defined) JCL string with no
overrides. -/
def reqEmptyJcl : PutRequest :=
  { resource := RESOURCE
    headers := [.textPlainUtf8, .intrdrModeText, .intrdrLrecl "80", .intrdrRecfm "F"]
    body := .text "" }

/-- C2 counterexample: `submitJclCommon` called with an empty (defined) JCL
string does not fail with a MissingParameter error — it issues the remote PUT
and returns its result, so the claim is false for the empty-string case on
the common path. -/
theorem submitJclCommon_emptyJcl_counterexample :
    SubmitJobs.submitJclCommon envFix
        { jcl := some "", internalReaderRecfm := none, internalReaderLrecl := none }
      = (.ok jobFix, [Event.putJob reqEmptyJcl])
    ∧ Event.isRemote (Event.putJob reqEmptyJcl) = true :=
  ⟨rfl, rfl⟩

/-- C2 amended: `submitJclString` fails with the MissingParameter error and
issues no remote call when the JCL string is null/undefined or empty;
`submitJclCommon` does so only when the JCL string is null/undefined — an
empty JCL string passes its validation and is sent to the remote endpoint. -/
theorem submitJcl_missingJcl_amended :
    (∀ (env : JobsEnv) (parms : ISubmitParms),
      SubmitJobs.submitJclString env none parms
        = (.error (.missingParameter SubmitJobs.missingJclMessage), []))
  ∧ (∀ (env : JobsEnv) (parms : ISubmitParms),
      SubmitJobs.submitJclString env (some "") parms
        = (.error (.missingParameter SubmitJobs.missingJclMessage), []))
  ∧ (∀ (env : JobsEnv) (rf lr : Option String),
      SubmitJobs.submitJclCommon env
          { jcl := none, internalReaderRecfm := rf, internalReaderLrecl := lr }
        = (.error (.missingParameter SubmitJobs.missingJclParmMessage), []))
  ∧ (∀ (env : JobsEnv) (rf lr : Option String), ∃ req : PutRequest,
      SubmitJobs.submitJclCommon env
          { jcl := some "", internalReaderRecfm := rf, internalReaderLrecl := lr }
        = (env.putExpectJSON req, [Event.putJob req])) := by
  refine ⟨fun env parms => rfl, fun env parms => by simp [SubmitJobs.submitJclString],
    fun env rf lr => rfl, fun env rf lr => ⟨_, rfl⟩⟩

/-- Headers sent for a literal-JCL submission with neither override
supplied. -/
def defaultJclHeaders : List Header :=
  [.textPlainUtf8, .intrdrModeText, .intrdrLrecl "80", .intrdrRecfm "F"]

/-- The intake PUT request for literal JCL with the given lrecl and recfm
header values. -/
def jclPutRequest (jclText lrecl recfm : String) : PutRequest :=
  { resource := RESOURCE
    headers := [.textPlainUtf8, .intrdrModeText, .intrdrLrecl lrecl, .intrdrRecfm recfm]
    body := .text jclText }

/-- C5: a literal-JCL submission with neither override supplied carries the
default headers lrecl=80 and recfm=F; when truthy overrides are supplied the
caller's values are used instead. -/
theorem submitJclCommon_headerDefaults (env : JobsEnv) (s : String) :
    (SubmitJobs.submitJclCommon env
        { jcl := some s, internalReaderRecfm := none, internalReaderLrecl := none }
      = (env.putExpectJSON { resource := RESOURCE, headers := defaultJclHeaders, body := .text s },
         [Event.putJob { resource := RESOURCE, headers := defaultJclHeaders, body := .text s }]))
  ∧ (∀ rf lr : String, rf ≠ "" → lr ≠ "" →
      SubmitJobs.submitJclCommon env
          { jcl := some s, internalReaderRecfm := some rf, internalReaderLrecl := some lr }
        = (env.putExpectJSON (jclPutRequest s lr rf),
           [Event.putJob (jclPutRequest s lr rf)])) := by
  constructor
  · rfl
  · intro rf lr hrf hlr
    simp [SubmitJobs.submitJclCommon, jclPutRequest, hrf, hlr]

/-- Witness for C5 at a concrete environment, JCL text and overrides. -/
theorem submitJclCommon_headerDefaults_witness :
    SubmitJobs.submitJclCommon envFix
        { jcl := some "//J1 JOB", internalReaderRecfm := some "V", internalReaderLrecl := some "120" }
      = (.ok jobFix, [Event.putJob (jclPutRequest "//J1 JOB" "120" "V")]) := by
  have h := (submitJclCommon_headerDefaults envFix "//J1 JOB").2 "V" "120"
    (by decide) (by decide)
  simpa [envFix] using h

/-- C7: the notify-on-completion operations validate that the submission
response carries both a job name and a job id before any status polling
begins, and fail with a MissingParameter error (performing no poll) when
either is absent — directly for `submitNotifyCommon`, and through it for
`submitJclNotifyCommon` and `submitJobNotifyCommon`, whose traces contain no
status-poll event in that case. -/
theorem submitNotify_validatesJobIdentity :
    (∀ (env : JobsEnv) (job : IJob) (status : Option JOB_STATUS) (watchDelay : Option Nat),
      job.jobname = none ∨ job.jobid = none →
      SubmitJobs.submitNotifyCommon env job status watchDelay
        = (.error (.missingParameter SubmitJobs.jobKeysMessage), []))
  ∧ (∀ (env : JobsEnv) (j : IJob) (parms : SubmitJobs.ISubmitJclNotifyParm) (s : String),
      env.putExpectJSON = (fun _ => Except.ok j) →
      parms.jcl = some s →
      j.jobname = none ∨ j.jobid = none →
      (SubmitJobs.submitJclNotifyCommon env parms).1
          = .error (.missingParameter SubmitJobs.jobKeysMessage)
        ∧ ∀ ev ∈ (SubmitJobs.submitJclNotifyCommon env parms).2, Event.isWait ev = false)
  ∧ (∀ (env : JobsEnv) (j : IJob) (parms : SubmitJobs.ISubmitJobNotifyParm) (d : String),
      env.putExpectJSON = (fun _ => Except.ok j) →
      parms.jobDataSet = some d →
      j.jobname = none ∨ j.jobid = none →
      (SubmitJobs.submitJobNotifyCommon env parms).1
          = .error (.missingParameter SubmitJobs.jobKeysMessage)
        ∧ ∀ ev ∈ (SubmitJobs.submitJobNotifyCommon env parms).2, Event.isWait ev = false) := by
  refine ⟨?_, ?_, ?_⟩
  · intro env job status watchDelay h
    have hb : (job.jobname.isNone || job.jobid.isNone) = true := by
      rcases h with h | h <;> simp [h]
    simp [SubmitJobs.submitNotifyCommon, hb]
  · intro env j parms s hput hjcl hj
    have hb : (j.jobname.isNone || j.jobid.isNone) = true := by
      rcases hj with h | h <;> simp [h]
    constructor
    · simp [SubmitJobs.submitJclNotifyCommon, SubmitJobs.submitJclCommon, hjcl, hput,
        SubmitJobs.submitNotifyCommon, hb]
    · intro ev hev
      simp [SubmitJobs.submitJclNotifyCommon, SubmitJobs.submitJclCommon, hjcl, hput,
        SubmitJobs.submitNotifyCommon, hb] at hev
      simp [hev, Event.isWait]
  · intro env j parms d hput hds hj
    have hb : (j.jobname.isNone || j.jobid.isNone) = true := by
      rcases hj with h | h <;> simp [h]
    constructor
    · simp [SubmitJobs.submitJobNotifyCommon, SubmitJobs.submitJobCommon, hds, hput,
        SubmitJobs.submitNotifyCommon, hb]
    · intro ev hev
      simp [SubmitJobs.submitJobNotifyCommon, SubmitJobs.submitJobCommon, hds, hput,
        SubmitJobs.submitNotifyCommon, hb] at hev
      simp [hev, Event.isWait]

/-- A submission response lacking a job id. -/
def jobNoId : IJob :=
  { jobname := some "IEFBR14", jobid := none, status := some JOB_STATUS.INPUT, retcode := none }

/-- An environment whose intake endpoint returns a job document lacking a
job id. -/
def envNoId : JobsEnv := { envFix with putExpectJSON := fun _ => .ok jobNoId }

/-- Witness for C7 at a concrete environment and job documents. -/
theorem submitNotify_validatesJobIdentity_witness :
    SubmitJobs.submitNotifyCommon envFix jobNoId none none
      = (.error (.missingParameter SubmitJobs.jobKeysMessage), [])
    ∧ (SubmitJobs.submitJclNotifyCommon envNoId
        { jcl := some "//J1 JOB", internalReaderRecfm := none, internalReaderLrecl := none,
          status := none, watchDelay := none }).1
      = .error (.missingParameter SubmitJobs.jobKeysMessage)
    ∧ (SubmitJobs.submitJobNotifyCommon envNoId
        { jobDataSet := some "USER.JCL(IEFBR14)", status := none, watchDelay := none }).1
      = .error (.missingParameter SubmitJobs.jobKeysMessage) := by
  refine ⟨?_, ?_, ?_⟩
  · exact submitNotify_validatesJobIdentity.1 envFix jobNoId none none (Or.inr rfl)
  · exact (submitNotify_validatesJobIdentity.2.1 envNoId jobNoId _ "//J1 JOB" rfl rfl
      (Or.inr rfl)).1
  · exact (submitNotify_validatesJobIdentity.2.2 envNoId jobNoId _ "USER.JCL(IEFBR14)" rfl rfl
      (Or.inr rfl)).1

/-- The monitor parameters `checkSubmitOptions` builds when waitForActive is
not set: target status OUTPUT. -/
def outputJobParms (parms : ISubmitParms) (job : IJob) : IMonitorJobWaitForParms :=
  { jobname := job.jobname, jobid := job.jobid, status := some JOB_STATUS.OUTPUT,
    maxAttempts := parms.maxAttempts, watchDelay := parms.watchDelay }

/-- The monitor parameters `checkSubmitOptions` builds when waitForActive is
set: target status ACTIVE. -/
def activeJobParms (parms : ISubmitParms) (job : IJob) : IMonitorJobWaitForParms :=
  { jobname := job.jobname, jobid := job.jobid, status := some JOB_STATUS.ACTIVE,
    maxAttempts := parms.maxAttempts, watchDelay := parms.watchDelay }

/-- C3: with viewAllSpoolContent set (and waitForActive not set),
`checkSubmitOptions` polls with target OUTPUT and returns an ordered list of
exactly one entry per enumerated spool descriptor, in descriptor order, each
entry carrying `{id, ddName, stepName, procName, data}` with the content
fetched for that descriptor; its trace shows one sequential content fetch per
descriptor, in order. -/
theorem checkSubmitOptions_spoolAggregation (env : JobsEnv) (parms : ISubmitParms)
    (job0 jobOut : IJob) (files : List IJobFile) (c : IJobFile → String)
    (hA : parms.waitForActive = false) (hV : parms.viewAllSpoolContent = true)
    (hmon : env.waitForStatusCommon (outputJobParms parms job0) = .ok jobOut)
    (hlist : env.getSpoolFilesForJob jobOut = .ok files)
    (hall : ∀ f ∈ files, env.getSpoolContent f = .ok (c f)) :
    SubmitJobs.checkSubmitOptions env parms job0
      = (.ok (.spool (files.map fun f =>
          { id := f.id, ddName := f.ddname, stepName := f.stepname,
            procName := f.procstep, data := c f })),
         (if parms.task then
            [Event.progress ("Waiting for " ++ optStr job0.jobid ++ " to enter OUTPUT") 30]
          else [])
         ++ [Event.waitForStatus (outputJobParms parms job0)]
         ++ (if parms.task then
              [Event.progress ("Retrieving spool content for " ++ optStr jobOut.jobid ++
                (match jobOut.retcode with | none => "" | some rc => ", " ++ rc)) 70]
            else [])
         ++ [Event.getSpoolFiles jobOut]
         ++ files.map Event.getSpoolContent) := by
  have hfetch := fetchSpool_ok env c files hall
  simp only [outputJobParms] at hmon ⊢
  simp [SubmitJobs.checkSubmitOptions, hA, hV, hmon, hlist, hfetch]

/-- Spool descriptor fixtures. -/
def fileA : IJobFile := { id := 2, ddname := "JESMSGLG", stepname := none, procstep := none }

/-- Spool descriptor fixture with a step name. -/
def fileB : IJobFile :=
  { id := 3, ddname := "JESJCL", stepname := some "STEP1", procstep := none }

/-- Spool descriptor fixture with step and proc names. -/
def fileC : IJobFile :=
  { id := 4, ddname := "SYSUT2", stepname := some "STEP1", procstep := some "PROC1" }

/-- An environment enumerating three spool descriptors whose content fetch
always succeeds. -/
def envSpool : JobsEnv :=
  { putExpectJSON := fun _ => .ok jobFix
    waitForStatusCommon := fun _ => .ok jobFix
    getSpoolFilesForJob := fun _ => .ok [fileA, fileB, fileC]
    getSpoolContent := fun f => .ok ("content " ++ f.ddname)
    downloadAllSpoolContentCommon := fun _ => .ok () }

/-- An options bag with only viewAllSpoolContent set. -/
def parmsView : ISubmitParms := { parmsNone with viewAllSpoolContent := true }

/-- Witness for C3 with three concrete spool descriptors: three ordered
entries, one content fetch per descriptor. -/
theorem checkSubmitOptions_spoolAggregation_witness :
    SubmitJobs.checkSubmitOptions envSpool parmsView jobFix
      = (.ok (.spool
          [{ id := 2, ddName := "JESMSGLG", stepName := none, procName := none,
             data := "content JESMSGLG" },
           { id := 3, ddName := "JESJCL", stepName := some "STEP1", procName := none,
             data := "content JESJCL" },
           { id := 4, ddName := "SYSUT2", stepName := some "STEP1", procName := some "PROC1",
             data := "content SYSUT2" }]),
         [Event.waitForStatus (outputJobParms parmsView jobFix),
          Event.getSpoolFiles jobFix,
          Event.getSpoolContent fileA, Event.getSpoolContent fileB,
          Event.getSpoolContent fileC]) := by
  have h := checkSubmitOptions_spoolAggregation envSpool parmsView jobFix jobFix
    [fileA, fileB, fileC] (fun f => "content " ++ f.ddname) rfl rfl rfl rfl
    (fun f _ => rfl)
  simpa [parmsView, parmsNone, fileA, fileB, fileC] using h

/-- C6: with viewAllSpoolContent set, if fetching the content of any one
spool file fails, the whole collection operation fails with that error — the
`Except.error` result carries no entries, including none for the files
fetched before the failure. -/
theorem checkSubmitOptions_spoolFailFast (env : JobsEnv) (parms : ISubmitParms)
    (job0 jobOut : IJob) (pre post : List IJobFile) (bad : IJobFile)
    (e : Thrown) (c : IJobFile → String)
    (hA : parms.waitForActive = false) (hV : parms.viewAllSpoolContent = true)
    (hmon : env.waitForStatusCommon (outputJobParms parms job0) = .ok jobOut)
    (hlist : env.getSpoolFilesForJob jobOut = .ok (pre ++ bad :: post))
    (hpre : ∀ f ∈ pre, env.getSpoolContent f = .ok (c f))
    (hbad : env.getSpoolContent bad = .error e) :
    (SubmitJobs.checkSubmitOptions env parms job0).1 = .error e := by
  have hfetch := fetchSpool_err env c bad post e hbad pre hpre
  simp only [outputJobParms] at hmon
  simp [SubmitJobs.checkSubmitOptions, hA, hV, hmon, hlist, hfetch]

/-- An environment in which fetching the second spool file's content fails. -/
def envSpoolFail : JobsEnv :=
  { envSpool with
    getSpoolContent := fun f =>
      if f.id = 3 then .error (.remoteFail "spool fetch failed")
      else .ok ("content " ++ f.ddname) }

/-- Witness for C6: the second of three spool fetches fails, and the whole
collection fails with that error. -/
theorem checkSubmitOptions_spoolFailFast_witness :
    (SubmitJobs.checkSubmitOptions envSpoolFail parmsView jobFix).1
      = .error (.remoteFail "spool fetch failed") :=
  checkSubmitOptions_spoolFailFast envSpoolFail parmsView jobFix jobFix
    [fileA] [fileC] fileB (.remoteFail "spool fetch failed")
    (fun f => "content " ++ f.ddname) rfl rfl rfl rfl
    (by intro f hf; simp at hf; subst hf; rfl) (by rfl)

/-- C1: with waitForActive set — even when directory (and possibly
viewAllSpoolContent/waitForOutput) is also set — `checkSubmitOptions`
resolves waitForActive first: using the spec-modelled status monitor it polls
until the job status is ACTIVE, returns that snapshot, and its entire trace
is the single ACTIVE-status poll: no spool-content fetch and no bulk
download. -/
theorem checkSubmitOptions_waitForActive_priority (env : JobsEnv) (query : Nat → IJob)
    (parms : ISubmitParms) (job0 : IJob) (k : Nat)
    (henv : env.waitForStatusCommon = MonitorJobs.waitForStatusCommon query)
    (hA : parms.waitForActive = true) (_hD : truthyS parms.directory = true)
    (hfirst : ∀ i, i < k → (query i).status ≠ some JOB_STATUS.ACTIVE)
    (hk : (query k).status = some JOB_STATUS.ACTIVE)
    (hbound : k < parms.maxAttempts.getD MonitorJobs.DEFAULT_ATTEMPTS) :
    SubmitJobs.checkSubmitOptions env parms job0
      = (.ok (.job (query k)), [Event.waitForStatus (activeJobParms parms job0)]) := by
  have hpoll := pollForStatus_first query JOB_STATUS.ACTIVE k 0
    (parms.maxAttempts.getD MonitorJobs.DEFAULT_ATTEMPTS)
    (fun i hi => by simpa using hfirst i hi) (by simpa using hk) hbound
  simp only [Nat.zero_add] at hpoll
  simp only [activeJobParms]
  simp [SubmitJobs.checkSubmitOptions, hA, henv, MonitorJobs.waitForStatusCommon, hpoll]

/-- A job snapshot that is still queued. -/
def jobInput : IJob :=
  { jobname := some "IEFBR14", jobid := some "JOB00001",
    status := some JOB_STATUS.INPUT, retcode := none }

/-- A job snapshot that has become active. -/
def jobActive : IJob :=
  { jobname := some "IEFBR14", jobid := some "JOB00001",
    status := some JOB_STATUS.ACTIVE, retcode := none }

/-- A status-query stream: INPUT on the first two polls, ACTIVE afterwards. -/
def queryFix : Nat → IJob := fun i => if i < 2 then jobInput else jobActive

/-- An environment whose status monitor is the spec-modelled poll loop over
`queryFix`. -/
def envPoll : JobsEnv :=
  { envFix with waitForStatusCommon := MonitorJobs.waitForStatusCommon queryFix }

/-- An options bag with waitForActive, directory and viewAllSpoolContent all
set. -/
def parmsActiveDir : ISubmitParms :=
  { parmsNone with
      waitForActive := true
      viewAllSpoolContent := true
      directory := some "/tmp/spool" }

/-- Witness for C1: three polls reach ACTIVE; the ACTIVE snapshot is
returned and the trace is the single status poll. -/
theorem checkSubmitOptions_waitForActive_priority_witness :
    SubmitJobs.checkSubmitOptions envPoll parmsActiveDir jobInput
      = (.ok (.job jobActive), [Event.waitForStatus (activeJobParms parmsActiveDir jobInput)]) := by
  have h := checkSubmitOptions_waitForActive_priority envPoll queryFix parmsActiveDir jobInput 2
    rfl rfl (by decide) (by intro i hi; interval_cases i <;> decide) (by decide) (by decide)
  simpa [queryFix, jobActive] using h

/-- C4: with the wait flag set, after a successful start call `processCmd`
enters the polling loop: it repeatedly queries workflow properties (no
attempt cap — any number of non-terminal responses keeps it looping, and the
model inserts no interval delay between queries) and terminates exactly at
the first response whose automationStatus is present with currentStepName
null/absent, reporting success when statusName is "complete" and failure for
any other statusName. -/
theorem processCmd_waitPolling :
    (∀ (env : StartCommonHandler.WorkflowEnv) (args : StartCommonHandler.StartArgs)
       (pre rest : List (Except Thrown IWorkflowInfo)) (r : IWorkflowInfo),
      args.wait = true →
      env.startWorkflow args.workflowKey args.resolveConflict args.stepName
        (!args.performOneStep.getD false) = .ok () →
      env.properties = pre ++ Except.ok r :: rest →
      (∀ p ∈ pre, continuesR p = true) →
      StartCommonHandler.terminal r = true →
      StartCommonHandler.processCmd env args =
        ((if r.statusName = some "complete" then
            StartCommonHandler.HandlerResult.output "Complete." "Workflow completed successfully."
          else StartCommonHandler.HandlerResult.output "Fail." "Workflow failed."),
         pre.length + 1))
  ∧ (∀ (env : StartCommonHandler.WorkflowEnv) (args : StartCommonHandler.StartArgs),
      args.wait = true →
      env.startWorkflow args.workflowKey args.resolveConflict args.stepName
        (!args.performOneStep.getD false) = .ok () →
      (∀ p ∈ env.properties, continuesR p = true) →
      StartCommonHandler.processCmd env args
        = (StartCommonHandler.HandlerResult.looping, env.properties.length)) := by
  constructor
  · intro env args pre rest r hwait hstart hprops hcont hterm
    simp only [StartCommonHandler.processCmd, hstart, hwait, if_true, hprops]
    rw [waitLoop_append_continues (Except.ok r :: rest) pre hcont,
      waitLoop_terminal_head r rest hterm]
    simp [Nat.add_comm]
  · intro env args hwait hstart hcont
    simp only [StartCommonHandler.processCmd, hstart, hwait, if_true]
    exact waitLoop_all_continues env.properties hcont

/-- A workflow-properties response still mid-step. -/
def wfRunning : IWorkflowInfo :=
  { automationStatus := some { currentStepName := some "step1" },
    statusName := some "in-progress" }

/-- A terminal workflow-properties response with status complete. -/
def wfComplete : IWorkflowInfo :=
  { automationStatus := some { currentStepName := none },
    statusName := some "complete" }

/-- A workflow environment whose start call succeeds and whose properties
endpoint answers running, then complete. -/
def envWf : StartCommonHandler.WorkflowEnv :=
  { startWorkflow := fun _ _ _ _ => .ok ()
    properties := [Except.ok wfRunning, Except.ok wfComplete] }

/-- Start-command arguments with the wait flag set. -/
def argsWait : StartCommonHandler.StartArgs :=
  { workflowKey := some "key1", resolveConflict := none, stepName := none,
    performOneStep := none, wait := true }

/-- Witness for C4: one running response then a complete terminal response
give a success report after exactly two properties queries. -/
theorem processCmd_waitPolling_witness :
    StartCommonHandler.processCmd envWf argsWait
      = (StartCommonHandler.HandlerResult.output "Complete." "Workflow completed successfully.", 2) := by
  have h := processCmd_waitPolling.1 envWf argsWait [Except.ok wfRunning] [] wfComplete
    rfl rfl rfl
    (by intro p hp; simp at hp; subst hp; rfl)
    (by rfl)
  simpa [wfComplete] using h

/-- C10: a properties response whose automationStatus is absent performs no
terminal check — the loop polls again regardless of that response's
statusName; termination with the complete/fail decision happens only on a
response that has automationStatus present with currentStepName
null/absent. -/
theorem waitLoop_missingAutomationStatus :
    (∀ (r : IWorkflowInfo) (rest : List (Except Thrown IWorkflowInfo)),
      r.automationStatus = none →
      StartCommonHandler.waitLoop (Except.ok r :: rest)
        = ((StartCommonHandler.waitLoop rest).1, (StartCommonHandler.waitLoop rest).2 + 1))
  ∧ (∀ (r : IWorkflowInfo) (rest : List (Except Thrown IWorkflowInfo)),
      StartCommonHandler.terminal r = false →
      StartCommonHandler.waitLoop (Except.ok r :: rest)
        = ((StartCommonHandler.waitLoop rest).1, (StartCommonHandler.waitLoop rest).2 + 1))
  ∧ (∀ (r : IWorkflowInfo) (rest : List (Except Thrown IWorkflowInfo)),
      StartCommonHandler.terminal r = true →
      StartCommonHandler.waitLoop (Except.ok r :: rest)
        = ((if r.statusName = some "complete" then
              StartCommonHandler.HandlerResult.output "Complete." "Workflow completed successfully."
            else StartCommonHandler.HandlerResult.output "Fail." "Workflow failed."), 1)) := by
  refine ⟨?_, ?_, ?_⟩
  · intro r rest hauto
    exact waitLoop_continue_head (Except.ok r) rest
      (by simp [continuesR, StartCommonHandler.continues, hauto])
  · intro r rest hterm
    refine waitLoop_continue_head (Except.ok r) rest ?_
    simp only [continuesR, StartCommonHandler.continues]
    cases hauto : r.automationStatus with
    | none => rfl
    | some auto =>
      simp only [StartCommonHandler.terminal, hauto] at hterm
      simpa [Option.isSome_iff_ne_none] using hterm
  · intro r rest hterm
    exact waitLoop_terminal_head r rest hterm

/-- A properties response lacking automationStatus but claiming completion. -/
def wfNoAuto : IWorkflowInfo :=
  { automationStatus := none, statusName := some "complete" }

/-- Witness for C10: a response with no automationStatus — even with
statusName "complete" — does not end the loop; the loop runs past it. -/
theorem waitLoop_missingAutomationStatus_witness :
    StartCommonHandler.waitLoop [Except.ok wfNoAuto]
      = (StartCommonHandler.HandlerResult.looping, 1) := by
  have h := waitLoop_missingAutomationStatus.1 wfNoAuto [] rfl
  simpa using h

/-- A workflow environment whose start call fails with a structured remote
error. -/
def envStartFail : StartCommonHandler.WorkflowEnv :=
  { startWorkflow := fun _ _ _ _ => .error (.remoteFail "boom"), properties := [] }

/-- Start-command arguments without the wait flag. -/
def argsNoWait : StartCommonHandler.StartArgs :=
  { workflowKey := some "key1", resolveConflict := none, stepName := none,
    performOneStep := none, wait := false }

/-- C8 counterexample: a failure of the workflow start call does not reach
the caller as the original structured error — the handler catches it and
rethrows the string "Start workflow: boom", which differs from the original
structured error. -/
theorem processCmd_rewrapsStartError_counterexample :
    StartCommonHandler.processCmd envStartFail argsNoWait
      = (StartCommonHandler.HandlerResult.thrown (.str "Start workflow: boom"), 0)
    ∧ Thrown.str "Start workflow: boom" ≠ Thrown.remoteFail "boom" := by
  exact ⟨rfl, by simp⟩

/-- C8 amended: remote-call failures propagate unchanged to the direct
caller everywhere in this layer except the workflow start call, whose
failure is caught and rethrown as a plain string prefixed
"Start workflow: "; in particular a properties-query failure inside the
wait loop and a status-monitor failure inside `checkSubmitOptions` reach the
caller as the original error. -/
theorem errorPropagation_amended :
    (∀ (env : StartCommonHandler.WorkflowEnv) (args : StartCommonHandler.StartArgs) (e : Thrown),
      env.startWorkflow args.workflowKey args.resolveConflict args.stepName
        (!args.performOneStep.getD false) = .error e →
      StartCommonHandler.processCmd env args
        = (StartCommonHandler.HandlerResult.thrown
            (.str ("Start workflow: " ++ thrownToString e)), 0))
  ∧ (∀ (env : StartCommonHandler.WorkflowEnv) (args : StartCommonHandler.StartArgs)
       (e : Thrown) (rest : List (Except Thrown IWorkflowInfo)),
      args.wait = true →
      env.startWorkflow args.workflowKey args.resolveConflict args.stepName
        (!args.performOneStep.getD false) = .ok () →
      env.properties = Except.error e :: rest →
      StartCommonHandler.processCmd env args
        = (StartCommonHandler.HandlerResult.thrown e, 1))
  ∧ (∀ (env : JobsEnv) (parms : ISubmitParms) (job : IJob) (e : Thrown),
      parms.waitForActive = true →
      env.waitForStatusCommon (activeJobParms parms job) = .error e →
      (SubmitJobs.checkSubmitOptions env parms job).1 = .error e) := by
  refine ⟨?_, ?_, ?_⟩
  · intro env args e hstart
    simp [StartCommonHandler.processCmd, hstart]
  · intro env args e rest hwait hstart hprops
    simp [StartCommonHandler.processCmd, hstart, hwait, hprops, StartCommonHandler.waitLoop]
  · intro env parms job e hA hmon
    simp only [activeJobParms] at hmon
    simp [SubmitJobs.checkSubmitOptions, hA, hmon]

/-- A workflow environment whose start call succeeds but whose first
properties query fails. -/
def envPropsFail : StartCommonHandler.WorkflowEnv :=
  { startWorkflow := fun _ _ _ _ => .ok ()
    properties := [Except.error (.remoteFail "props boom")] }

/-- A jobs environment whose status monitor fails. -/
def envMonFail : JobsEnv :=
  { envFix with waitForStatusCommon := fun _ => .error (.remoteFail "monitor boom") }

/-- An options bag with only waitForActive set. -/
def parmsActiveOnly : ISubmitParms := { parmsNone with waitForActive := true }

/-- Witness for the C8 amended theorem at concrete environments: the start
failure is rewrapped, while the properties failure and the monitor failure
propagate unchanged. -/
theorem errorPropagation_amended_witness :
    StartCommonHandler.processCmd envStartFail argsWait
      = (StartCommonHandler.HandlerResult.thrown (.str "Start workflow: boom"), 0)
    ∧ StartCommonHandler.processCmd envPropsFail argsWait
      = (StartCommonHandler.HandlerResult.thrown (.remoteFail "props boom"), 1)
    ∧ (SubmitJobs.checkSubmitOptions envMonFail parmsActiveOnly jobInput).1
      = .error (.remoteFail "monitor boom") := by
  refine ⟨?_, ?_, ?_⟩
  · exact errorPropagation_amended.1 envStartFail argsWait (.remoteFail "boom") rfl
  · exact errorPropagation_amended.2.1 envPropsFail argsWait (.remoteFail "props boom") [] rfl rfl rfl
  · exact errorPropagation_amended.2.2 envMonFail parmsActiveOnly jobInput
      (.remoteFail "monitor boom") rfl rfl
